import Mathlib

/-!
Verification development for the distributed task-queue and worker-pool
subsystem (queue client/worker) and the session distribution layer
(session manager) of the orchestrator, shallowly embedded from
`src-tauri/src/queue/{types,client,worker}.rs` and
`src-tauri/src/session/{types,manager}.rs`.

Modelling conventions:
- `chrono::DateTime<Utc>` timestamps are modelled as `Int` seconds since
  an arbitrary epoch (claims are stated at second granularity, matching
  `Duration::num_seconds`).
- `serde_json::Value` payloads are opaque to every operation in scope;
  they are modelled by a small `Json` inductive.
- `HashMap<String, V>` is modelled as an association list with unique
  keys (insert replaces, lookup finds the entry).
- `f32` load fractions are modelled as `Int` (no operation in scope
  computes with them).
- Fresh identifiers (`Uuid::new_v4`) and the `rand` choice of the Random
  strategy are supplied as explicit parameters.
-/

namespace NinjaSquad

/-- A minimal model of `serde_json::Value`: the queue and session logic
in scope never inspects payload contents. -/
inductive Json where
  | null : Json
  | str (s : String) : Json
  | num (n : Int) : Json
deriving DecidableEq

/-! ### Association-list model of `HashMap<String, V>` -/

/-- `HashMap::get` / `get_mut` read: first entry with the key. -/
def alist_lookup (k : String) : List (String × α) → Option α
  | [] => none
  | (k', v) :: rest => if k' = k then some v else alist_lookup k rest

/-- `HashMap::insert`: replaces any entry with the same key. -/
def alist_insert (k : String) (v : α) (m : List (String × α)) : List (String × α) :=
  (k, v) :: m.filter (fun p => p.1 ≠ k)

/-- `HashMap::remove`: deletes the entry with the key. -/
def alist_remove (k : String) (m : List (String × α)) : List (String × α) :=
  m.filter (fun p => p.1 ≠ k)

/-- In-place mutation through `get_mut`: applies `f` to the entry with the
key, if present. -/
def alist_update (k : String) (f : α → α) : List (String × α) → List (String × α)
  | [] => []
  | (k', v) :: rest =>
      if k' = k then (k', f v) :: rest else (k', v) :: alist_update k f rest

namespace Queue

/-! ### `queue/types.rs` -/

/-- `TaskType` (queue/types.rs lines 16-24). -/
inductive TaskType where
  | RunCommand : TaskType
  | CreateSession : TaskType
  | ExecuteCode : TaskType
  | HealthCheck : TaskType
  | FileOperation : TaskType
  | Custom (s : String) : TaskType
deriving DecidableEq

/-- `TaskMessage` (queue/types.rs lines 5-14). `priority : u8` modelled as
`Nat` (0-255); timestamps as `Int` seconds. -/
structure TaskMessage where
  id : String
  task_type : TaskType
  payload : Json
  created_at : Int
  priority : Nat
  retry_count : Nat
  max_retries : Nat
deriving DecidableEq

/-- `WorkerStatus` (queue/types.rs lines 40-46). -/
inductive WorkerStatus where
  | Online : WorkerStatus
  | Busy : WorkerStatus
  | Offline : WorkerStatus
  | Maintenance : WorkerStatus
deriving DecidableEq

/-- `WorkerInfo` (queue/types.rs lines 26-38). `current_load : f32` is
modelled as `Int`: no operation in scope computes with it. -/
structure WorkerInfo where
  id : String
  hostname : String
  ip_address : String
  port : Nat
  capabilities : List String
  status : WorkerStatus
  last_heartbeat : Int
  current_load : Int
  max_concurrent_tasks : Nat
  current_tasks : List String
deriving DecidableEq

/-- `TaskResult` (queue/types.rs lines 48-57). -/
structure TaskResult where
  task_id : String
  worker_id : String
  success : Bool
  result : Option Json
  error : Option String
  execution_time_ms : Nat
  completed_at : Int
deriving DecidableEq

/-! ### `InMemoryQueueClient` (queue/client.rs lines 19-95) -/

/-- The three shared containers of `InMemoryQueueClient`
(queue/client.rs lines 19-23). -/
structure QueueState where
  tasks : List TaskMessage
  results : List (String × TaskResult)
  workers : List (String × WorkerInfo)
deriving DecidableEq

/-- `InMemoryQueueClient::new` (queue/client.rs lines 26-32). -/
def QueueState.new : QueueState := ⟨[], [], []⟩

/-- Stable insertion keeping the list sorted by descending `priority`:
an element is placed after every element of priority `≥` its own. -/
def insert_desc (t : TaskMessage) : List TaskMessage → List TaskMessage
  | [] => [t]
  | u :: us => if t.priority ≤ u.priority then u :: insert_desc t us else t :: u :: us

/-- `tasks.sort_by(|a, b| b.priority.cmp(&a.priority))`: a stable sort
into descending-priority order (Rust `sort_by` is stable; equal
priorities keep their original relative order). -/
def sort_by_priority_desc (l : List TaskMessage) : List TaskMessage :=
  l.foldl (fun acc t => insert_desc t acc) []

/-- `publish_task` (queue/client.rs lines 37-42): push, then stable-sort
descending by priority. -/
def publish_task (t : TaskMessage) (st : QueueState) : QueueState :=
  { st with tasks := sort_by_priority_desc (st.tasks ++ [t]) }

/-- `consume_task` (queue/client.rs lines 44-47): `Vec::pop` removes and
returns the LAST element of the vector. -/
def consume_task (st : QueueState) : Option TaskMessage × QueueState :=
  (st.tasks.getLast?, { st with tasks := st.tasks.dropLast })

/-- `publish_result` (queue/client.rs lines 49-53): insert keyed by
`task_id`, overwriting any prior result. -/
def publish_result (r : TaskResult) (st : QueueState) : QueueState :=
  { st with results := alist_insert r.task_id r st.results }

/-- `consume_result` (queue/client.rs lines 55-58): `HashMap::remove` —
returns the stored result and deletes it. -/
def consume_result (task_id : String) (st : QueueState) : Option TaskResult × QueueState :=
  (alist_lookup task_id st.results, { st with results := alist_remove task_id st.results })

/-- `register_worker` (queue/client.rs lines 60-64). -/
def register_worker (w : WorkerInfo) (st : QueueState) : QueueState :=
  { st with workers := alist_insert w.id w st.workers }

/-- `update_worker_heartbeat` (queue/client.rs lines 66-74): stamp `now`
on the registered worker, or fail with a not-found error. -/
def update_worker_heartbeat (now : Int) (worker_id : String) (st : QueueState) :
    Except String QueueState :=
  match alist_lookup worker_id st.workers with
  | some _ =>
      Except.ok { st with
        workers := alist_update worker_id (fun w => { w with last_heartbeat := now }) st.workers }
  | none => Except.error ("Worker " ++ worker_id ++ " not found")

/-- `get_active_workers` (queue/client.rs lines 76-88): keep workers whose
time since last heartbeat is strictly below 60 seconds. -/
def get_active_workers (now : Int) (st : QueueState) : List WorkerInfo :=
  (st.workers.map Prod.snd).filter (fun w => now - w.last_heartbeat < 60)

/-- `remove_worker` (queue/client.rs lines 90-94). -/
def remove_worker (worker_id : String) (st : QueueState) : QueueState :=
  { st with workers := alist_remove worker_id st.workers }

end Queue

namespace Worker

open Queue

/-! ### `WorkerService` (queue/worker.rs) -/

/-- The five type-specific handlers (queue/worker.rs lines 181-342) run
against external collaborators (simulated agent calls, `bash`, the
filesystem); each is an async function from a payload to
`Result<serde_json::Value, String>`. They are modelled as uninterpreted
functions supplied in an environment. -/
structure HandlerEnv where
  handle_run_command : Json → Except String Json
  handle_create_session : Json → Except String Json
  handle_execute_code : Json → Except String Json
  handle_health_check : Json → Except String Json
  handle_file_operation : Json → Except String Json

/-- The `match task.task_type` dispatch of `process_task`
(queue/worker.rs lines 139-158). The `Custom` arm produces an error
naming the unknown type and invokes no handler. -/
def dispatch (h : HandlerEnv) (task : TaskMessage) : Except String Json :=
  match task.task_type with
  | .RunCommand => h.handle_run_command task.payload
  | .CreateSession => h.handle_create_session task.payload
  | .ExecuteCode => h.handle_execute_code task.payload
  | .HealthCheck => h.handle_health_check task.payload
  | .FileOperation => h.handle_file_operation task.payload
  | .Custom custom_type => Except.error ("Unknown custom task type: " ++ custom_type)

/-- The type-specific handler's own outcome for a task: `none` for a
`Custom` task, which has no handler. -/
def handler_result (h : HandlerEnv) (task : TaskMessage) : Option (Except String Json) :=
  match task.task_type with
  | .RunCommand => some (h.handle_run_command task.payload)
  | .CreateSession => some (h.handle_create_session task.payload)
  | .ExecuteCode => some (h.handle_execute_code task.payload)
  | .HealthCheck => some (h.handle_health_check task.payload)
  | .FileOperation => some (h.handle_file_operation task.payload)
  | .Custom _ => none

/-- `result.is_ok()` (queue/worker.rs line 173). -/
def except_is_ok : Except String Json → Bool
  | .ok _ => true
  | .error _ => false

/-- `result.as_ref().ok().cloned()` (queue/worker.rs line 174). -/
def except_ok_val : Except String Json → Option Json
  | .ok v => some v
  | .error _ => none

/-- `result.err()` (queue/worker.rs line 175). -/
def except_err_val : Except String Json → Option String
  | .ok _ => none
  | .error e => some e

/-- First write block of `process_task` (queue/worker.rs lines 133-137):
push the task id and mark the worker `Busy`. -/
def process_task_begin (task_id : String) (info : WorkerInfo) : WorkerInfo :=
  { info with current_tasks := info.current_tasks ++ [task_id], status := WorkerStatus.Busy }

/-- Second write block of `process_task` (queue/worker.rs lines 160-166):
`retain` every id other than the task's, and revert to `Online` when no
tasks remain. -/
def process_task_end (task_id : String) (info : WorkerInfo) : WorkerInfo :=
  let info2 := { info with current_tasks := info.current_tasks.filter (fun id => id ≠ task_id) }
  if info2.current_tasks.isEmpty then { info2 with status := WorkerStatus.Online } else info2

/-- `process_task` (queue/worker.rs lines 125-179). `now` is the
`completed_at` stamp and `elapsed_ms` the measured elapsed time. Returns
the built `TaskResult` and the worker's `info` after both write blocks. -/
def process_task (h : HandlerEnv) (now : Int) (elapsed_ms : Nat) (task : TaskMessage)
    (info : WorkerInfo) : TaskResult × WorkerInfo :=
  let worker_id := info.id
  let info1 := process_task_begin task.id info
  let result := dispatch h task
  let info2 := process_task_end task.id info1
  ({ task_id := task.id
     worker_id := worker_id
     success := except_is_ok result
     result := except_ok_val result
     error := except_err_val result
     execution_time_ms := elapsed_ms
     completed_at := now }, info2)

/-- Observable queue calls issued by the worker's background loops. -/
inductive WorkerAction where
  | consume_queue : WorkerAction
  | publish_res (task_id : String) : WorkerAction
  | update_heartbeat (worker_id : String) : WorkerAction
  | deregister (worker_id : String) : WorkerAction
  | sleep_secs (n : Nat) : WorkerAction
deriving DecidableEq

/-- One iteration of the task loop (queue/worker.rs lines 86-109): the
loop runs `while *running.read().await`; when running it consumes a task
and either processes-and-publishes or sleeps 1s on an empty queue.
`none` means the loop has exited. (Against the in-memory queue,
`consume_task` and `publish_result` never fail; a publish failure would
only be logged, line 96-98.) -/
def task_loop_iter (h : HandlerEnv) (running : Bool) (now : Int) (elapsed_ms : Nat)
    (st : QueueState) (info : WorkerInfo) :
    Option (QueueState × WorkerInfo × List WorkerAction) :=
  if running then
    match consume_task st with
    | (some task, st1) =>
        let pr := process_task h now elapsed_ms task info
        some (publish_result pr.1 st1, pr.2,
          [WorkerAction.consume_queue, WorkerAction.publish_res pr.1.task_id])
    | (none, st1) =>
        some (st1, info, [WorkerAction.consume_queue, WorkerAction.sleep_secs 1])
  else none

/-- One iteration of the heartbeat loop (queue/worker.rs lines 71-79):
`loop { interval.tick(); update_worker_heartbeat }` — the spawned task
never reads the running flag; a heartbeat failure is only logged and the
loop keeps running. The iteration always issues the update call. -/
def heartbeat_loop_iter (now : Int) (worker_id : String) (st : QueueState) :
    QueueState × List WorkerAction :=
  (match update_worker_heartbeat now worker_id st with
   | .ok st' => st'
   | .error _ => st,
   [WorkerAction.update_heartbeat worker_id])

/-- Guard under which the task loop runs another iteration
(queue/worker.rs line 87: `while *running.read().await`). -/
def task_loop_continues (running : Bool) : Bool := running

/-- Guard under which the heartbeat loop runs another iteration
(queue/worker.rs line 73: a bare `loop`, no condition). -/
def heartbeat_loop_continues (running : Bool) : Bool := true

/-- `WorkerService::stop` (queue/worker.rs lines 115-123): set the
running flag to false, then deregister from the queue directory. -/
def stop (worker_id : String) (st : QueueState) : Bool × QueueState × List WorkerAction :=
  (false, remove_worker worker_id st, [WorkerAction.deregister worker_id])

/-- The `WorkerInfo` built by `WorkerService::new` (queue/worker.rs lines
28-43); the fresh uuid, detected hostname and current time are supplied
as parameters. -/
def worker_new_info (id hostname : String) (now : Int) : WorkerInfo :=
  { id := id
    hostname := hostname
    ip_address := "127.0.0.1"
    port := 5000
    capabilities := ["run_command", "create_session", "execute_code"]
    status := WorkerStatus.Online
    last_heartbeat := now
    current_load := 0
    max_concurrent_tasks := 5
    current_tasks := [] }

/-- Observable snapshot points of one worker's sequential task loop: each
`WorkerService` owns its `Arc<RwLock<WorkerInfo>>`, and `process_task`
is awaited to completion before the next `consume_task`, so the info is
either between tasks or inside `process_task` for one task id. -/
inductive WorkerSnap where
  | outside (info : WorkerInfo) : WorkerSnap
  | inside (info : WorkerInfo) (task_id : String) : WorkerSnap

/-- The `WorkerInfo` visible at a snapshot. -/
def WorkerSnap.info : WorkerSnap → WorkerInfo
  | .outside i => i
  | .inside i _ => i

/-- Transitions of a worker's own `WorkerInfo`: the two write blocks of
`process_task` (queue/worker.rs lines 133-137 and 160-166) and
`update_load` (lines 348-351), the only code that mutates it. -/
inductive worker_step : WorkerSnap → WorkerSnap → Prop where
  | begin_task (info : WorkerInfo) (tid : String) :
      worker_step (.outside info) (.inside (process_task_begin tid info) tid)
  | end_task (info : WorkerInfo) (tid : String) :
      worker_step (.inside info tid) (.outside (process_task_end tid info))
  | set_load_outside (info : WorkerInfo) (load : Int) :
      worker_step (.outside info) (.outside { info with current_load := load })
  | set_load_inside (info : WorkerInfo) (tid : String) (load : Int) :
      worker_step (.inside info tid) (.inside { info with current_load := load } tid)

/-- Snapshots reachable from a freshly constructed worker. -/
def worker_reachable (init : WorkerInfo) (s : WorkerSnap) : Prop :=
  Relation.ReflTransGen worker_step (WorkerSnap.outside init) s

/-- The per-snapshot shape invariant of one worker's sequential task
loop: between tasks `current_tasks` is empty, inside `process_task` it
holds exactly the task being processed, and `max_concurrent_tasks` is
never written. -/
def snap_inv (mmax : Nat) : WorkerSnap → Prop
  | .outside i => i.current_tasks = [] ∧ i.max_concurrent_tasks = mmax
  | .inside i tid => i.current_tasks = [tid] ∧ i.max_concurrent_tasks = mmax

end Worker

namespace Session

/-! ### `session/types.rs` -/

/-- `SessionStatus` (session/types.rs lines 13-19). -/
inductive SessionStatus where
  | Idle : SessionStatus
  | Working : SessionStatus
  | Failed (reason : String) : SessionStatus
  | Completed : SessionStatus
deriving DecidableEq

/-- `Task` (session/types.rs lines 21-28); the timestamps are rfc3339
strings in the source. -/
structure Task where
  id : String
  prompt : String
  assigned_at : String
  completed_at : Option String
  result : Option String
deriving DecidableEq

/-- `OrchestratorSession` (session/types.rs lines 3-11). -/
structure OrchestratorSession where
  id : String
  opencode_server_id : String
  wezterm_pane_id : Option String
  status : SessionStatus
  created_at : String
  task : Option Task
deriving DecidableEq

/-- `DistributionStrategy` (session/types.rs lines 30-35). -/
inductive DistributionStrategy where
  | RoundRobin : DistributionStrategy
  | LeastLoaded : DistributionStrategy
  | Random : DistributionStrategy
deriving DecidableEq

/-! ### `SessionManager` (session/manager.rs) -/

/-- The mutable state of `SessionManager` (session/manager.rs lines
11-18): the sessions map, the strategy, the round-robin cursor and the
pending-tasks buffer. The opencode service and wezterm controller are
external collaborators with no bearing on this state. -/
structure SessionManager where
  sessions : List (String × OrchestratorSession)
  distribution_strategy : DistributionStrategy
  round_robin_index : Nat
  pending_tasks : List Task
deriving DecidableEq

/-- `SessionManager::new` (session/manager.rs lines 21-33). -/
def SessionManager.new : SessionManager :=
  { sessions := []
    distribution_strategy := DistributionStrategy.RoundRobin
    round_robin_index := 0
    pending_tasks := [] }

/-- `register_session` (session/manager.rs lines 35-53); the fresh
`session-{uuid}` id and the rfc3339 timestamp are supplied as
parameters. -/
def register_session (m : SessionManager) (opencode_server_id session_id now : String) :
    OrchestratorSession × SessionManager :=
  let session : OrchestratorSession :=
    { id := session_id
      opencode_server_id := opencode_server_id
      wezterm_pane_id := none
      status := SessionStatus.Idle
      created_at := now
      task := none }
  (session, { m with sessions := alist_insert session_id session m.sessions })

/-- The ids of the `Idle` sessions, in map iteration order
(session/manager.rs lines 99-103). -/
def idle_session_ids (sessions : List (String × OrchestratorSession)) : List String :=
  (sessions.filter (fun p => p.2.status = SessionStatus.Idle)).map Prod.fst

/-- `find_available_session` (session/manager.rs lines 97-129). `choice`
models the `rand::thread_rng` pick of the Random strategy. On success
returns the chosen id and the manager with an advanced round-robin
cursor. -/
def find_available_session (m : SessionManager) (choice : Nat) :
    Except String (String × SessionManager) :=
  let idle_sessions := idle_session_ids m.sessions
  if idle_sessions.isEmpty then
    Except.error "No available sessions"
  else
    match m.distribution_strategy with
    | DistributionStrategy.RoundRobin =>
        let index := m.round_robin_index
        let selected := idle_sessions.getD (index % idle_sessions.length) ""
        Except.ok (selected,
          { m with round_robin_index := (index + 1) % idle_sessions.length })
    | DistributionStrategy.Random =>
        Except.ok (idle_sessions.getD (choice % idle_sessions.length) "", m)
    | DistributionStrategy.LeastLoaded =>
        Except.ok (idle_sessions.getD 0 "", m)

/-- `distribute_task` (session/manager.rs lines 55-95): build a fresh
task, pick an available session, assign the task to it and mark it
`Working`. The HTTP forward of the prompt to the backing server touches
no manager state (success and failure are only logged, lines 79-90).
The fresh `task-{uuid}` id and timestamp are supplied as parameters. -/
def distribute_task (m : SessionManager) (task_id now prompt : String) (choice : Nat) :
    Except String (String × SessionManager) :=
  let task : Task :=
    { id := task_id
      prompt := prompt
      assigned_at := now
      completed_at := none
      result := none }
  match find_available_session m choice with
  | Except.error e => Except.error e
  | Except.ok (sid, m1) =>
      let sessions' :=
        alist_update sid
          (fun s => { s with task := some task, status := SessionStatus.Working }) m1.sessions
      Except.ok (task_id, { m1 with sessions := sessions' })

/-- The in-place mutation `handle_session_failure` applies to the failed
session (session/manager.rs lines 136-137): status `Failed("Session
failed")` and a cleared task reference. -/
def fail_mark (s : OrchestratorSession) : OrchestratorSession :=
  { s with status := SessionStatus.Failed "Session failed", task := none }

/-- `handle_session_failure` (session/manager.rs lines 131-154): mark the
session `Failed`, clear its task; if the cleared task was incomplete,
append it to the pending buffer and retry `distribute_task` with the
same prompt, ignoring the outcome. Unknown ids give a not-found error.
`new_task_id`/`now`/`choice` feed the retried `distribute_task`. -/
def handle_session_failure (m : SessionManager) (session_id new_task_id now : String)
    (choice : Nat) : Except String SessionManager :=
  match alist_lookup session_id m.sessions with
  | none => Except.error ("Session " ++ session_id ++ " not found")
  | some session =>
      let m1 := { m with sessions := alist_update session_id fail_mark m.sessions }
      match session.task with
      | some task =>
          if task.completed_at = none then
            let m2 := { m1 with pending_tasks := m1.pending_tasks ++ [task] }
            match distribute_task m2 new_task_id now task.prompt choice with
            | Except.ok (_, m3) => Except.ok m3
            | Except.error _ => Except.ok m2
          else Except.ok m1
      | none => Except.ok m1

/-- `rebalance_sessions` (session/manager.rs lines 156-186): computes
per-session task counts and the max/min spread but performs no state
mutation (migration is unimplemented); always returns Ok. -/
def rebalance_sessions (m : SessionManager) : Except String SessionManager :=
  Except.ok m

/-- The state-mutating operations of `SessionManager`.
`get_session_state` and `list_sessions` are pure reads. -/
inductive MgrOp where
  | register (opencode_server_id session_id now : String) : MgrOp
  | distribute (task_id now prompt : String) (choice : Nat) : MgrOp
  | fail_session (session_id new_task_id now : String) (choice : Nat) : MgrOp
  | rebalance : MgrOp
  | set_strategy (strategy : DistributionStrategy) : MgrOp

/-- The manager state after an operation (on an `Err` return the source
leaves the state as the operation left it; `distribute_task` and
`handle_session_failure` error only before any mutation). -/
def applyOp (m : SessionManager) : MgrOp → SessionManager
  | MgrOp.register server_id sid now => (register_session m server_id sid now).2
  | MgrOp.distribute tid now prompt c =>
      match distribute_task m tid now prompt c with
      | Except.ok (_, m') => m'
      | Except.error _ => m
  | MgrOp.fail_session sid ntid now c =>
      match handle_session_failure m sid ntid now c with
      | Except.ok m' => m'
      | Except.error _ => m
  | MgrOp.rebalance =>
      match rebalance_sessions m with
      | Except.ok m' => m'
      | Except.error _ => m
  | MgrOp.set_strategy strat => { m with distribution_strategy := strat }

/-- Freshness of the uuid-based id an operation introduces: `register`
never reuses an existing session id (`session-{Uuid::new_v4()}`). -/
def op_fresh (m : SessionManager) : MgrOp → Prop
  | MgrOp.register _ sid _ => alist_lookup sid m.sessions = none
  | _ => True

end Session

namespace Examples

open Queue Worker Session

/-- A concrete task used as input data. -/
def task_of (id : String) (priority : Nat) : TaskMessage :=
  { id := id
    task_type := TaskType.HealthCheck
    payload := Json.null
    created_at := 0
    priority := priority
    retry_count := 0
    max_retries := 3 }

/-- A concrete task result used as input data. -/
def result_ex : TaskResult :=
  { task_id := "T"
    worker_id := "w1"
    success := true
    result := some Json.null
    error := none
    execution_time_ms := 3
    completed_at := 0 }

/-- A handler environment where every handler fails. -/
def handlers_fail : HandlerEnv :=
  { handle_run_command := fun _ => Except.error "boom"
    handle_create_session := fun _ => Except.error "boom"
    handle_execute_code := fun _ => Except.error "boom"
    handle_health_check := fun _ => Except.error "boom"
    handle_file_operation := fun _ => Except.error "boom" }

/-- A handler environment where every handler succeeds. -/
def handlers_ok : HandlerEnv :=
  { handle_run_command := fun _ => Except.ok Json.null
    handle_create_session := fun _ => Except.ok Json.null
    handle_execute_code := fun _ => Except.ok Json.null
    handle_health_check := fun _ => Except.ok Json.null
    handle_file_operation := fun _ => Except.ok Json.null }

/-- A freshly constructed worker's info. -/
def info_ex : WorkerInfo := worker_new_info "w1" "host" 0

/-- Manager with three registered idle sessions s1, s2, s3. -/
def mgr3 : SessionManager :=
  (register_session
    (register_session
      (register_session SessionManager.new "srv-1" "s1" "t0").2
      "srv-2" "s2" "t0").2
    "srv-3" "s3" "t0").2

/-- A task assigned to session s1 and not yet completed. -/
def task_pending : Session.Task :=
  { id := "task-1", prompt := "fix the bug", assigned_at := "t1", completed_at := none,
    result := none }

/-- Manager with s1 Working on `task_pending` and s2 Idle: the setting of
the session-failure recovery scenario. -/
def mgr_fail : SessionManager :=
  { sessions :=
      [("s1",
        { id := "s1", opencode_server_id := "srv-1", wezterm_pane_id := none,
          status := SessionStatus.Working, created_at := "t0", task := some task_pending }),
       ("s2",
        { id := "s2", opencode_server_id := "srv-2", wezterm_pane_id := none,
          status := SessionStatus.Idle, created_at := "t0", task := none })]
    distribution_strategy := DistributionStrategy.RoundRobin
    round_robin_index := 0
    pending_tasks := [] }

end Examples

/-! ## Helper lemmas -/

theorem alist_lookup_insert_self (k : String) (v : α) (m : List (String × α)) :
    alist_lookup k (alist_insert k v m) = some v := by
  simp [alist_insert, alist_lookup]

theorem alist_lookup_filter_ne (k : String) (m : List (String × α)) :
    alist_lookup k (m.filter (fun p => p.1 ≠ k)) = none := by
  induction m with
  | nil => simp [alist_lookup]
  | cons p rest ih =>
      by_cases h : p.1 = k
      · simpa [List.filter, h] using ih
      · simpa [List.filter, h, alist_lookup] using ih

theorem alist_lookup_remove_self (k : String) (m : List (String × α)) :
    alist_lookup k (alist_remove k m) = none :=
  alist_lookup_filter_ne k m

theorem alist_lookup_update_self (k : String) (f : α → α) (m : List (String × α)) :
    alist_lookup k (alist_update k f m) = (alist_lookup k m).map f := by
  induction m with
  | nil => simp [alist_update, alist_lookup]
  | cons p rest ih =>
      obtain ⟨k', v⟩ := p
      by_cases h : k' = k
      · simp [alist_update, alist_lookup, h]
      · simpa [alist_update, alist_lookup, h] using ih

theorem alist_lookup_update_ne (k k' : String) (hne : k' ≠ k) (f : α → α)
    (m : List (String × α)) :
    alist_lookup k' (alist_update k f m) = alist_lookup k' m := by
  induction m with
  | nil => simp [alist_update]
  | cons p rest ih =>
      obtain ⟨k0, v⟩ := p
      by_cases h : k0 = k
      · subst h
        have hk : k0 ≠ k' := fun h' => hne (h' ▸ rfl)
        simp [alist_update, alist_lookup, hk]
      · by_cases h2 : k0 = k'
        · subst h2
          simp [alist_update, alist_lookup, hne]
        · simpa [alist_update, alist_lookup, h, h2] using ih

theorem alist_lookup_mem (k : String) (v : α) :
    ∀ m : List (String × α), alist_lookup k m = some v → (k, v) ∈ m := by
  intro m
  induction m with
  | nil => intro h; simp [alist_lookup] at h
  | cons p rest ih =>
      intro h
      obtain ⟨k', v'⟩ := p
      by_cases hk : k' = k
      · subst hk
        simp [alist_lookup] at h
        simp [h]
      · simp [alist_lookup, hk] at h
        exact List.mem_cons_of_mem _ (ih h)

theorem alist_lookup_filter_of_ne (k k' : String) (hne : k' ≠ k) :
    ∀ m : List (String × α),
      alist_lookup k' (m.filter (fun p => p.1 ≠ k)) = alist_lookup k' m := by
  intro m
  induction m with
  | nil => rfl
  | cons p rest ih =>
      obtain ⟨k0, v0⟩ := p
      by_cases h0 : k0 = k
      · subst h0
        have hk' : k0 ≠ k' := fun h => hne h.symm
        simp [alist_lookup, hk']
        simpa using ih
      · by_cases h1 : k0 = k'
        · subst h1
          simp [alist_lookup, h0]
        · simp [alist_lookup, h0, h1]
          simpa using ih

theorem alist_lookup_insert_ne (k k' : String) (hne : k' ≠ k) (v : α)
    (m : List (String × α)) :
    alist_lookup k' (alist_insert k v m) = alist_lookup k' m := by
  have h1 : ¬(k = k') := fun h => hne h.symm
  simp only [alist_insert, alist_lookup, if_neg h1]
  exact alist_lookup_filter_of_ne k k' hne m

namespace Worker

open Queue

theorem dispatch_of_handler_result (h : HandlerEnv) (task : TaskMessage)
    (r : Except String Json) (hh : handler_result h task = some r) :
    dispatch h task = r := by
  cases htype : task.task_type <;>
    simp [handler_result, htype] at hh <;>
    simp [dispatch, htype, hh]

theorem process_task_end_current_tasks (tid : String) (info : WorkerInfo) :
    (process_task_end tid info).current_tasks
      = info.current_tasks.filter (fun id => id ≠ tid) := by
  simp only [process_task_end]
  split <;> rfl

theorem process_task_end_status (tid : String) (info : WorkerInfo) :
    (process_task_end tid info).current_tasks = [] →
    (process_task_end tid info).status = WorkerStatus.Online := by
  simp only [process_task_end]
  split
  · intro _; rfl
  · intro hc
    rename_i hemp
    have hc' : info.current_tasks.filter (fun id => id ≠ tid) = [] := hc
    rw [hc'] at hemp
    simp at hemp

theorem worker_reachable_inv (init : WorkerInfo) (s : WorkerSnap)
    (hinit : init.current_tasks = []) (h : worker_reachable init s) :
    snap_inv init.max_concurrent_tasks s := by
  induction h with
  | refl => exact ⟨hinit, rfl⟩
  | tail hsteps hstep ih =>
      cases hstep with
      | begin_task info tid =>
          exact ⟨by simp [process_task_begin, ih.1], by simpa [process_task_begin] using ih.2⟩
      | end_task info tid =>
          refine ⟨?_, ?_⟩
          · rw [process_task_end_current_tasks, ih.1]
            simp
          · have : (process_task_end tid info).max_concurrent_tasks
                = info.max_concurrent_tasks := by
              simp only [process_task_end]
              split <;> rfl
            rw [this]
            exact ih.2
      | set_load_outside info load => exact ⟨ih.1, ih.2⟩
      | set_load_inside info tid load => exact ⟨ih.1, ih.2⟩

end Worker

theorem getD_mem_of_lt (l : List String) (i : Nat) (d : String) (h : i < l.length) :
    l.getD i d ∈ l := by
  induction l generalizing i with
  | nil => simp at h
  | cons a as ih =>
      cases i with
      | zero => simp [List.getD]
      | succ n =>
          have hn : n < as.length := by simpa using h
          have := ih n hn
          simp only [List.getD] at this ⊢
          exact List.mem_cons_of_mem a this

theorem alist_lookup_of_nodup_mem (k : String) (v : α) :
    ∀ l : List (String × α), (l.map Prod.fst).Nodup → (k, v) ∈ l →
      alist_lookup k l = some v := by
  intro l
  induction l with
  | nil => intro _ h; simp at h
  | cons p rest ih =>
      intro hnd hmem
      obtain ⟨k0, v0⟩ := p
      rw [List.map_cons, List.nodup_cons] at hnd
      rcases List.mem_cons.mp hmem with heq | hrest
      · injection heq with h1 h2
        subst h1
        subst h2
        simp [alist_lookup]
      · have hk0 : k0 ≠ k := by
          intro h
          subst h
          exact hnd.1 (List.mem_map.mpr ⟨(k0, v), hrest, rfl⟩)
        simp only [alist_lookup, if_neg hk0]
        exact ih hnd.2 hrest

theorem alist_update_keys (k : String) (f : α → α) :
    ∀ l : List (String × α), (alist_update k f l).map Prod.fst = l.map Prod.fst := by
  intro l
  induction l with
  | nil => rfl
  | cons p rest ih =>
      obtain ⟨k0, v0⟩ := p
      by_cases h : k0 = k <;> simp [alist_update, h, ih]

namespace Session

theorem mem_idle_session_ids (sid : String) (l : List (String × OrchestratorSession)) :
    sid ∈ idle_session_ids l ↔ ∃ v, (sid, v) ∈ l ∧ v.status = SessionStatus.Idle := by
  simp only [idle_session_ids, List.mem_map, List.mem_filter]
  constructor
  · rintro ⟨⟨k, v⟩, ⟨hmem, hidle⟩, rfl⟩
    exact ⟨v, hmem, by simpa using hidle⟩
  · rintro ⟨v, hmem, hidle⟩
    exact ⟨(sid, v), ⟨hmem, by simpa using hidle⟩, rfl⟩

theorem find_available_session_spec (m : SessionManager) (c : Nat) (sid' : String)
    (m1 : SessionManager) :
    find_available_session m c = Except.ok (sid', m1) →
    sid' ∈ idle_session_ids m.sessions
    ∧ m1.sessions = m.sessions
    ∧ m1.pending_tasks = m.pending_tasks := by
  intro h
  unfold find_available_session at h
  by_cases hemp : (idle_session_ids m.sessions).isEmpty
  · rw [if_pos hemp] at h
    exact absurd h (by simp)
  · rw [if_neg hemp] at h
    have hlen : 0 < (idle_session_ids m.sessions).length := by
      cases hidle : idle_session_ids m.sessions with
      | nil => rw [hidle] at hemp; simp at hemp
      | cons a as => simp [hidle]
    cases hstrat : m.distribution_strategy with
    | RoundRobin =>
        rw [hstrat] at h
        simp only [Except.ok.injEq, Prod.mk.injEq] at h
        obtain ⟨hsid, hm1⟩ := h
        subst hsid
        subst hm1
        exact ⟨getD_mem_of_lt _ _ _ (Nat.mod_lt _ hlen), rfl, rfl⟩
    | Random =>
        rw [hstrat] at h
        simp only [Except.ok.injEq, Prod.mk.injEq] at h
        obtain ⟨hsid, hm1⟩ := h
        subst hsid
        subst hm1
        exact ⟨getD_mem_of_lt _ _ _ (Nat.mod_lt _ hlen), rfl, rfl⟩
    | LeastLoaded =>
        rw [hstrat] at h
        simp only [Except.ok.injEq, Prod.mk.injEq] at h
        obtain ⟨hsid, hm1⟩ := h
        subst hsid
        subst hm1
        exact ⟨getD_mem_of_lt _ _ _ hlen, rfl, rfl⟩

theorem find_available_session_ok_of_ne_nil (m : SessionManager) (c : Nat)
    (hne : idle_session_ids m.sessions ≠ []) :
    ∃ sid' m1, find_available_session m c = Except.ok (sid', m1) := by
  unfold find_available_session
  have hemp : ¬(idle_session_ids m.sessions).isEmpty := by
    cases hidle : idle_session_ids m.sessions with
    | nil => exact absurd hidle hne
    | cons a as => simp
  rw [if_neg hemp]
  cases m.distribution_strategy <;> exact ⟨_, _, rfl⟩

theorem distribute_task_error_of_no_idle (m : SessionManager)
    (tid now prompt : String) (c : Nat)
    (hnil : idle_session_ids m.sessions = []) :
    distribute_task m tid now prompt c = Except.error "No available sessions" := by
  unfold distribute_task find_available_session
  rw [hnil]
  rfl

theorem distribute_task_spec (m : SessionManager) (tid now prompt : String) (c : Nat)
    (tid2 : String) (m2 : SessionManager) :
    distribute_task m tid now prompt c = Except.ok (tid2, m2) →
    tid2 = tid
    ∧ ∃ sid', sid' ∈ idle_session_ids m.sessions
        ∧ m2.sessions = alist_update sid'
            (fun s => { s with
              task := some { id := tid, prompt := prompt, assigned_at := now,
                             completed_at := none, result := none },
              status := SessionStatus.Working }) m.sessions
        ∧ m2.pending_tasks = m.pending_tasks := by
  intro h
  unfold distribute_task at h
  cases hf : find_available_session m c with
  | error e => rw [hf] at h; exact absurd h (by simp)
  | ok p =>
      obtain ⟨sid', m1⟩ := p
      obtain ⟨hmem, hsess, hpend⟩ := find_available_session_spec m c sid' m1 hf
      rw [hf] at h
      simp only [Except.ok.injEq, Prod.mk.injEq] at h
      obtain ⟨htid, hm2⟩ := h
      subst htid
      subst hm2
      exact ⟨rfl, sid', hmem, by rw [hsess], hpend⟩

theorem handle_session_failure_eq_not_found (m : SessionManager)
    (sid nid now : String) (c : Nat)
    (hlook : alist_lookup sid m.sessions = none) :
    handle_session_failure m sid nid now c
      = Except.error ("Session " ++ sid ++ " not found") := by
  unfold handle_session_failure
  rw [hlook]

theorem handle_session_failure_eq_of_task_none (m : SessionManager)
    (sid nid now : String) (c : Nat) (s : OrchestratorSession)
    (hlook : alist_lookup sid m.sessions = some s) (htask : s.task = none) :
    handle_session_failure m sid nid now c
      = Except.ok { m with sessions := alist_update sid fail_mark m.sessions } := by
  unfold handle_session_failure
  rw [hlook]
  simp only [htask]

theorem handle_session_failure_eq_of_task_completed (m : SessionManager)
    (sid nid now : String) (c : Nat) (s : OrchestratorSession) (task0 : Task)
    (hlook : alist_lookup sid m.sessions = some s) (htask : s.task = some task0)
    (hcomp : task0.completed_at ≠ none) :
    handle_session_failure m sid nid now c
      = Except.ok { m with sessions := alist_update sid fail_mark m.sessions } := by
  unfold handle_session_failure
  rw [hlook]
  simp only [htask, if_neg hcomp]

theorem handle_session_failure_eq_of_task_incomplete (m : SessionManager)
    (sid nid now : String) (c : Nat) (s : OrchestratorSession) (task0 : Task)
    (hlook : alist_lookup sid m.sessions = some s) (htask : s.task = some task0)
    (hcomp : task0.completed_at = none) :
    handle_session_failure m sid nid now c
      = match distribute_task
            { m with sessions := alist_update sid fail_mark m.sessions,
                     pending_tasks := m.pending_tasks ++ [task0] }
            nid now task0.prompt c with
        | Except.ok (_, m3) => Except.ok m3
        | Except.error _ =>
            Except.ok { m with sessions := alist_update sid fail_mark m.sessions,
                               pending_tasks := m.pending_tasks ++ [task0] } := by
  unfold handle_session_failure
  rw [hlook]
  simp only [htask, if_pos hcomp]

theorem idle_session_ids_eq_nil_of_all (l : List (String × OrchestratorSession))
    (h : ∀ p ∈ l, p.2.status ≠ SessionStatus.Idle) :
    idle_session_ids l = [] := by
  have hf : l.filter (fun p => p.2.status = SessionStatus.Idle) = [] := by
    rw [List.filter_eq_nil_iff]
    intro p hp
    simpa using h p hp
  unfold idle_session_ids
  rw [hf]
  rfl

theorem distribute_task_ok_of_ne_nil (m : SessionManager)
    (tid now prompt : String) (c : Nat)
    (hne : idle_session_ids m.sessions ≠ []) :
    ∃ m2, distribute_task m tid now prompt c = Except.ok (tid, m2) := by
  obtain ⟨sid', m1, hf⟩ := find_available_session_ok_of_ne_nil m c hne
  refine ⟨{ m1 with
      sessions := alist_update sid'
        (fun s => { s with
          task := some { id := tid, prompt := prompt, assigned_at := now,
                         completed_at := none, result := none },
          status := SessionStatus.Working }) m1.sessions }, ?_⟩
  unfold distribute_task
  rw [hf]

end Session

/-! ## Claim theorems -/

open Queue Worker Session in
/-- C1: the claim states `consume_task` returns the highest-priority
pending task, so publishing priorities 1, 9, 5 should yield 9, 5, 1.
The code sorts the vector into descending-priority order on publish but
`consume_task` uses `Vec::pop`, which removes the LAST element: the
consumes yield priorities 1, 5, 9 — lowest first, the reverse of the
claim (and ties in reverse insertion order). This theorem evaluates the
embedded code at the claim's own input. -/
theorem consume_task_yields_lowest_priority_first :
    (consume_task (publish_task (Examples.task_of "C" 5)
        (publish_task (Examples.task_of "B" 9)
          (publish_task (Examples.task_of "A" 1) QueueState.new)))).1
      = some (Examples.task_of "A" 1)
    ∧ (consume_task (consume_task (publish_task (Examples.task_of "C" 5)
        (publish_task (Examples.task_of "B" 9)
          (publish_task (Examples.task_of "A" 1) QueueState.new)))).2).1
      = some (Examples.task_of "C" 5)
    ∧ (consume_task (consume_task (consume_task (publish_task (Examples.task_of "C" 5)
        (publish_task (Examples.task_of "B" 9)
          (publish_task (Examples.task_of "A" 1) QueueState.new)))).2).2).1
      = some (Examples.task_of "B" 9) := by
  decide

open Session in
/-- C2: the claim states that with three idle sessions the 4th
`distribute_task` call assigns to the same session as the 1st. In the
code no operation ever returns a session to `Idle`, so after the first
three calls (which do leave every session `Working` with exactly one
task) the idle set is empty and the 4th call returns the
no-available-sessions error instead of assigning anything. -/
theorem fourth_distribute_task_fails :
    ((applyOp (applyOp (applyOp Examples.mgr3
        (MgrOp.distribute "t1" "now" "p1" 0))
        (MgrOp.distribute "t2" "now" "p2" 0))
        (MgrOp.distribute "t3" "now" "p3" 0)).sessions.map
          (fun p => (p.1, p.2.status, p.2.task.isSome)))
      = [("s3", SessionStatus.Working, true),
         ("s2", SessionStatus.Working, true),
         ("s1", SessionStatus.Working, true)]
    ∧ distribute_task (applyOp (applyOp (applyOp Examples.mgr3
        (MgrOp.distribute "t1" "now" "p1" 0))
        (MgrOp.distribute "t2" "now" "p2" 0))
        (MgrOp.distribute "t3" "now" "p3" 0)) "t4" "now" "p4" 0
      = Except.error "No available sessions" := by
  exact ⟨by decide, rfl⟩

open Queue Worker in
/-- C3 counterexample: the claim states the running flag is observed by
BOTH background loops, so that after `stop` the heartbeat loop performs
no further `update_worker_heartbeat` call. The heartbeat task
(worker.rs lines 71-79) is a bare `loop` that never reads the flag: with
the flag already false its guard still holds and its next iteration
still issues the heartbeat call. -/
theorem heartbeat_loop_ignores_stop :
    (stop "w1" QueueState.new).1 = false
    ∧ heartbeat_loop_continues false = true
    ∧ (heartbeat_loop_iter 5 "w1" QueueState.new).2
        = [WorkerAction.update_heartbeat "w1"] := by
  decide

open Queue Worker in
/-- C3 (amended): `stop` sets the running flag to false and deregisters
the worker from the queue directory; the task loop observes the flag on
its next iteration and performs no further `consume_task` call
(in-flight processing completes — the flag is only consulted between
iterations); the heartbeat loop does NOT observe the flag: its guard is
unconditional and each of its iterations still issues an
`update_worker_heartbeat` call. -/
theorem stop_halts_task_loop_but_not_heartbeat_loop :
    ∀ (worker_id : String) (st : QueueState) (now : Int) (h : HandlerEnv)
      (ems : Nat) (info : WorkerInfo),
      (stop worker_id st).1 = false
      ∧ alist_lookup worker_id (stop worker_id st).2.1.workers = none
      ∧ task_loop_continues false = false
      ∧ task_loop_iter h false now ems st info = none
      ∧ heartbeat_loop_continues false = true
      ∧ (heartbeat_loop_iter now worker_id st).2
          = [WorkerAction.update_heartbeat worker_id] := by
  intro worker_id st now h ems info
  refine ⟨rfl, ?_, rfl, rfl, rfl, rfl⟩
  simpa [stop, remove_worker] using alist_lookup_remove_self worker_id st.workers

open Queue in
/-- C4: for the in-memory queue, `consume_result` is a single-consumer
take: after `publish_result` stores a result for task id T, the first
`consume_result T` returns it, the stored entry is gone, and any
`consume_result T` on a state with no stored result for T returns none
and leaves no entry — so every subsequent call (with no intervening
publish for T) returns none. -/
theorem consume_result_single_take :
    ∀ (st : QueueState) (r : TaskResult),
      (consume_result r.task_id (publish_result r st)).1 = some r
      ∧ alist_lookup r.task_id
          ((consume_result r.task_id (publish_result r st)).2).results = none
      ∧ ∀ st' : QueueState, alist_lookup r.task_id st'.results = none →
          (consume_result r.task_id st').1 = none
          ∧ alist_lookup r.task_id ((consume_result r.task_id st').2).results = none := by
  intro st r
  refine ⟨?_, ?_, ?_⟩
  · simp [consume_result, publish_result, alist_lookup_insert_self]
  · simp [consume_result, publish_result, alist_lookup_remove_self]
  · intro st' hnone
    exact ⟨by simpa [consume_result] using hnone,
           by simp [consume_result, alist_lookup_remove_self]⟩

open Queue in
/-- C4 witness: publishing a concrete result for task id "T", the first
consume returns it and the second returns none. -/
theorem consume_result_single_take_witness :
    (consume_result "T" (publish_result Examples.result_ex QueueState.new)).1
      = some Examples.result_ex
    ∧ (consume_result "T"
        ((consume_result "T" (publish_result Examples.result_ex QueueState.new)).2)).1
      = none := by
  have h := consume_result_single_take QueueState.new Examples.result_ex
  exact ⟨h.1, (h.2.2 _ h.2.1).1⟩

open Queue Worker in
/-- C6: a task whose type is `Custom t` produces an immediately failed
result whose error names the unknown type `t`; no handler is invoked:
the outcome is identical under any two handler environments, and the
type-specific handler outcome is `none`. -/
theorem process_task_custom_no_handler :
    ∀ (h h' : HandlerEnv) (now : Int) (ems : Nat) (t : String)
      (task : TaskMessage) (info : WorkerInfo),
      task.task_type = TaskType.Custom t →
      process_task h now ems task info = process_task h' now ems task info
      ∧ (process_task h now ems task info).1.success = false
      ∧ (process_task h now ems task info).1.error
          = some ("Unknown custom task type: " ++ t)
      ∧ handler_result h task = none := by
  intro h h' now ems t task info htype
  refine ⟨?_, ?_, ?_, ?_⟩ <;>
    simp [process_task, dispatch, htype, except_is_ok, except_err_val,
      except_ok_val, handler_result]

open Queue Worker in
/-- C6 witness: a concrete `Custom "mystery"` task fails identically
under the all-succeeding and all-failing handler environments, with the
error naming the unknown type. -/
theorem process_task_custom_no_handler_witness :
    process_task Examples.handlers_ok 0 7
        { Examples.task_of "X" 5 with task_type := TaskType.Custom "mystery" } Examples.info_ex
      = process_task Examples.handlers_fail 0 7
        { Examples.task_of "X" 5 with task_type := TaskType.Custom "mystery" } Examples.info_ex
    ∧ (process_task Examples.handlers_ok 0 7
        { Examples.task_of "X" 5 with task_type := TaskType.Custom "mystery" } Examples.info_ex).1.error
      = some ("Unknown custom task type: " ++ "mystery") := by
  have h := process_task_custom_no_handler Examples.handlers_ok Examples.handlers_fail 0 7
    "mystery" { Examples.task_of "X" 5 with task_type := TaskType.Custom "mystery" }
    Examples.info_ex rfl
  exact ⟨h.1, h.2.2.1⟩

open Queue Worker in
/-- C5: for every dispatched task with a type-specific handler,
`process_task` builds a result whose success flag is true exactly when
the handler returned Ok; a handler error string lands in the result's
`error` field; after processing the task id is gone from
`current_tasks`, and the status reverts to `Online` when no tasks
remain; and one task-loop iteration always yields a next state whenever
the running flag is set — an execution failure never exits the loop. -/
theorem process_task_success_iff_handler_ok :
    ∀ (h : HandlerEnv) (now : Int) (ems : Nat) (task : TaskMessage)
      (info : WorkerInfo) (r : Except String Json),
      handler_result h task = some r →
      (process_task h now ems task info).1.success = except_is_ok r
      ∧ (∀ e, r = Except.error e → (process_task h now ems task info).1.error = some e)
      ∧ task.id ∉ (process_task h now ems task info).2.current_tasks
      ∧ ((process_task h now ems task info).2.current_tasks = [] →
          (process_task h now ems task info).2.status = WorkerStatus.Online)
      ∧ (∀ (st : QueueState) (running : Bool),
          (task_loop_iter h running now ems st info).isSome = running) := by
  intro h now ems task info r hh
  have hd : dispatch h task = r := dispatch_of_handler_result h task r hh
  refine ⟨?_, ?_, ?_, ?_, ?_⟩
  · show except_is_ok (dispatch h task) = except_is_ok r
    rw [hd]
  · intro e he
    show except_err_val (dispatch h task) = some e
    rw [hd, he]
    rfl
  · show task.id ∉ (process_task_end task.id (process_task_begin task.id info)).current_tasks
    rw [process_task_end_current_tasks]
    simp
  · exact process_task_end_status task.id (process_task_begin task.id info)
  · intro st running
    cases running with
    | false => rfl
    | true =>
        rcases hc : consume_task st with ⟨o, st1⟩
        cases o <;> simp [task_loop_iter, hc]

open Queue Worker in
/-- C5 witness: with an all-failing handler environment, processing a
concrete HealthCheck task yields success = false, the handler's error
string in the error field, and a `current_tasks` no longer holding the
task id. -/
theorem process_task_success_iff_handler_ok_witness :
    handler_result Examples.handlers_fail (Examples.task_of "T" 5)
      = some (Except.error "boom")
    ∧ (process_task Examples.handlers_fail 0 7 (Examples.task_of "T" 5)
        Examples.info_ex).1.success = except_is_ok (Except.error "boom")
    ∧ (process_task Examples.handlers_fail 0 7 (Examples.task_of "T" 5)
        Examples.info_ex).1.error = some "boom"
    ∧ "T" ∉ (process_task Examples.handlers_fail 0 7 (Examples.task_of "T" 5)
        Examples.info_ex).2.current_tasks := by
  have h := process_task_success_iff_handler_ok Examples.handlers_fail 0 7
    (Examples.task_of "T" 5) Examples.info_ex (Except.error "boom") rfl
  exact ⟨rfl, h.1, h.2.1 "boom" rfl, h.2.2.1⟩

open Queue Worker in
/-- C8: at every snapshot reachable by a freshly constructed worker's
sequential task loop (the only code mutating its `WorkerInfo`), the
length of `current_tasks` never exceeds `max_concurrent_tasks`. Each
worker owns its info, so the bound holds per worker for any number of
workers and tasks. -/
theorem worker_current_tasks_bounded :
    ∀ (id hostname : String) (t0 : Int) (s : WorkerSnap),
      worker_reachable (worker_new_info id hostname t0) s →
      s.info.current_tasks.length ≤ s.info.max_concurrent_tasks := by
  intro id hostname t0 s h
  have hinv := worker_reachable_inv (worker_new_info id hostname t0) s rfl h
  have hmax : (worker_new_info id hostname t0).max_concurrent_tasks = 5 := rfl
  cases s with
  | outside i =>
      obtain ⟨h1, h2⟩ := hinv
      show i.current_tasks.length ≤ i.max_concurrent_tasks
      rw [h1, h2, hmax]
      decide
  | inside i tid =>
      obtain ⟨h1, h2⟩ := hinv
      show i.current_tasks.length ≤ i.max_concurrent_tasks
      rw [h1, h2, hmax]
      show (1 : Nat) ≤ 5
      decide

open Queue Worker in
/-- C8 witness: the snapshot in the middle of processing one task,
reached by one `begin` step from a fresh worker, satisfies the bound. -/
theorem worker_current_tasks_bounded_witness :
    worker_reachable (worker_new_info "w" "host" 0)
      (WorkerSnap.inside (process_task_begin "t1" (worker_new_info "w" "host" 0)) "t1")
    ∧ (WorkerSnap.inside (process_task_begin "t1" (worker_new_info "w" "host" 0))
        "t1").info.current_tasks.length
      ≤ (WorkerSnap.inside (process_task_begin "t1" (worker_new_info "w" "host" 0))
        "t1").info.max_concurrent_tasks :=
  ⟨Relation.ReflTransGen.single (worker_step.begin_task (worker_new_info "w" "host" 0) "t1"),
   worker_current_tasks_bounded "w" "host" 0 _
     (Relation.ReflTransGen.single (worker_step.begin_task (worker_new_info "w" "host" 0) "t1"))⟩

open Queue in
/-- C9: `get_active_workers` excludes every registered worker whose last
heartbeat is more than 60 seconds old and includes every registered
worker whose last heartbeat is less than 60 seconds old; heartbeating
resets the stamp, so a heartbeat at time t keeps the worker included at
any instant less than 60 seconds after t. -/
theorem get_active_workers_window :
    ∀ (st : QueueState) (w : WorkerInfo) (now : Int) (k : String),
      (k, w) ∈ st.workers →
      (now - w.last_heartbeat > 60 → w ∉ get_active_workers now st)
      ∧ (now - w.last_heartbeat < 60 → w ∈ get_active_workers now st)
      ∧ (∀ t : Int, alist_lookup k st.workers = some w →
          ∃ st', update_worker_heartbeat t k st = Except.ok st'
            ∧ ∀ now' : Int, now' - t < 60 →
                { w with last_heartbeat := t } ∈ get_active_workers now' st') := by
  intro st w now k hk
  refine ⟨?_, ?_, ?_⟩
  · intro hstale hmem
    rw [get_active_workers, List.mem_filter] at hmem
    have : now - w.last_heartbeat < 60 := by simpa using hmem.2
    omega
  · intro hfresh
    rw [get_active_workers, List.mem_filter]
    exact ⟨List.mem_map.mpr ⟨(k, w), hk, rfl⟩, by simpa using hfresh⟩
  · intro t hlook
    refine ⟨{ st with
        workers := alist_update k (fun w => { w with last_heartbeat := t }) st.workers },
      ?_, ?_⟩
    · simp [update_worker_heartbeat, hlook]
    · intro now' hrecent
      rw [get_active_workers, List.mem_filter]
      have hlook' : alist_lookup k
          (alist_update k (fun w => { w with last_heartbeat := t }) st.workers)
          = some { w with last_heartbeat := t } := by
        rw [alist_lookup_update_self, hlook]
        rfl
      exact ⟨List.mem_map.mpr ⟨(k, { w with last_heartbeat := t }),
        alist_lookup_mem k _ _ hlook', rfl⟩, by simpa using hrecent⟩

open Queue in
/-- C9 witness: a worker registered with heartbeat stamp 0 is in the
active list at time 59 and out of it at time 100. -/
theorem get_active_workers_window_witness :
    ("w1", Examples.info_ex) ∈ (register_worker Examples.info_ex QueueState.new).workers
    ∧ Examples.info_ex ∈ get_active_workers 59 (register_worker Examples.info_ex QueueState.new)
    ∧ Examples.info_ex ∉ get_active_workers 100 (register_worker Examples.info_ex QueueState.new) := by
  refine ⟨by decide, ?_, ?_⟩
  · exact (get_active_workers_window (register_worker Examples.info_ex QueueState.new)
      Examples.info_ex 59 "w1" (by decide)).2.1 (by decide)
  · exact (get_active_workers_window (register_worker Examples.info_ex QueueState.new)
      Examples.info_ex 100 "w1" (by decide)).1 (by decide)

open Session in
/-- C7: `handle_session_failure` on a registered session marks it
`Failed`, clears its task reference, and, when the cleared task had no
`completed_at`, appends it to the pending-tasks buffer and retries
`distribute_task` with the same prompt, ignoring the outcome (the call
still returns Ok); when exactly one other idle session remains, the
retried distribution assigns a task with the same prompt to it; on an
unknown session id it returns a not-found error. The `Nodup` hypothesis
is the key-uniqueness invariant of the sessions `HashMap`. -/
theorem handle_session_failure_marks_and_requeues :
    ∀ (m : SessionManager) (sid new_task_id now : String) (choice : Nat),
      (m.sessions.map Prod.fst).Nodup →
      ((alist_lookup sid m.sessions = none →
         handle_session_failure m sid new_task_id now choice
           = Except.error ("Session " ++ sid ++ " not found"))
       ∧ ∀ s, alist_lookup sid m.sessions = some s →
          ∃ m', handle_session_failure m sid new_task_id now choice = Except.ok m'
            ∧ alist_lookup sid m'.sessions = some (fail_mark s)
            ∧ (∀ task0, s.task = some task0 → task0.completed_at = none →
                m'.pending_tasks = m.pending_tasks ++ [task0]
                ∧ ∀ s2id,
                    idle_session_ids (alist_update sid fail_mark m.sessions) = [s2id] →
                    ∃ s2, alist_lookup s2id m'.sessions = some s2
                      ∧ s2.status = SessionStatus.Working
                      ∧ ∃ t', s2.task = some t'
                          ∧ t'.id = new_task_id ∧ t'.prompt = task0.prompt)) := by
  intro m sid nid now c hnd
  refine ⟨handle_session_failure_eq_not_found m sid nid now c, ?_⟩
  intro s hlook
  have hndmark : ((alist_update sid fail_mark m.sessions).map Prod.fst).Nodup := by
    rw [alist_update_keys]
    exact hnd
  have hlookmark : alist_lookup sid (alist_update sid fail_mark m.sessions)
      = some (fail_mark s) := by
    rw [alist_lookup_update_self, hlook]
    rfl
  cases htask : s.task with
  | none =>
      refine ⟨_, handle_session_failure_eq_of_task_none m sid nid now c s hlook htask,
        hlookmark, ?_⟩
      intro task0 h0
      exact absurd h0 (by simp)
  | some task0 =>
      by_cases hcomp : task0.completed_at = none
      · -- incomplete task: re-queued and redistributed
        have heq := handle_session_failure_eq_of_task_incomplete m sid nid now c s task0
          hlook htask hcomp
        cases hdist : distribute_task
            { m with sessions := alist_update sid fail_mark m.sessions,
                     pending_tasks := m.pending_tasks ++ [task0] }
            nid now task0.prompt c with
        | error e =>
            rw [hdist] at heq
            refine ⟨_, heq, hlookmark, ?_⟩
            intro task1 h1 _
            injection h1 with h1
            subst h1
            refine ⟨rfl, ?_⟩
            intro s2id hidle
            exfalso
            have hne : idle_session_ids (alist_update sid fail_mark m.sessions) ≠ [] := by
              rw [hidle]
              simp
            obtain ⟨m2', hok⟩ := distribute_task_ok_of_ne_nil
              { m with sessions := alist_update sid fail_mark m.sessions,
                       pending_tasks := m.pending_tasks ++ [task0] }
              nid now task0.prompt c hne
            rw [hok] at hdist
            exact Except.noConfusion hdist
        | ok p =>
            obtain ⟨tid2, m3⟩ := p
            rw [hdist] at heq
            obtain ⟨htid2, sid', hmemidle, hm3sess, hm3pend⟩ := distribute_task_spec
              { m with sessions := alist_update sid fail_mark m.sessions,
                       pending_tasks := m.pending_tasks ++ [task0] }
              nid now task0.prompt c tid2 m3 hdist
            have hmemidle' : sid' ∈ idle_session_ids (alist_update sid fail_mark m.sessions) :=
              hmemidle
            have hsid' : sid' ≠ sid := by
              intro h
              subst h
              obtain ⟨v, hvmem, hvidle⟩ := (mem_idle_session_ids _ _).mp hmemidle'
              have hl := alist_lookup_of_nodup_mem sid' v _ hndmark hvmem
              rw [hlookmark] at hl
              injection hl with hl
              rw [← hl] at hvidle
              exact SessionStatus.noConfusion hvidle
            have hm3sess' : m3.sessions = alist_update sid'
                (fun s0 => { s0 with
                  task := some { id := nid, prompt := task0.prompt, assigned_at := now,
                                 completed_at := none, result := none },
                  status := SessionStatus.Working })
                (alist_update sid fail_mark m.sessions) := hm3sess
            refine ⟨m3, heq, ?_, ?_⟩
            · rw [hm3sess', alist_lookup_update_ne sid' sid (fun h => hsid' h.symm), hlookmark]
            · intro task1 h1 _
              injection h1 with h1
              subst h1
              have hm3pend' : m3.pending_tasks = m.pending_tasks ++ [task0] := hm3pend
              refine ⟨hm3pend', ?_⟩
              intro s2id hidle
              have hchosen : sid' = s2id := by
                rw [hidle] at hmemidle'
                simpa using hmemidle'
              subst hchosen
              obtain ⟨v, hvmem, hvidle⟩ := (mem_idle_session_ids _ _).mp hmemidle'
              have hlv := alist_lookup_of_nodup_mem sid' v _ hndmark hvmem
              have hlook2 : alist_lookup sid' m3.sessions
                  = some { v with
                      task := some { id := nid, prompt := task0.prompt, assigned_at := now,
                                     completed_at := none, result := none },
                      status := SessionStatus.Working } := by
                rw [hm3sess', alist_lookup_update_self, hlv]
                rfl
              exact ⟨{ v with
                  task := some { id := nid, prompt := task0.prompt, assigned_at := now,
                                 completed_at := none, result := none },
                  status := SessionStatus.Working }, hlook2, rfl,
                { id := nid, prompt := task0.prompt, assigned_at := now,
                  completed_at := none, result := none }, rfl, rfl, rfl⟩
      · -- completed task: only marked failed, nothing re-queued
        refine ⟨_, handle_session_failure_eq_of_task_completed m sid nid now c s task0
          hlook htask hcomp, hlookmark, ?_⟩
        intro task1 h1 hcomp1
        injection h1 with h1
        subst h1
        exact absurd hcomp1 hcomp

open Session in
/-- C7 witness: failing session s1 (Working on an incomplete task, with
s2 the only other — idle — session) marks s1 Failed, clears its task,
re-queues the task and reassigns a task with the same prompt to s2. -/
theorem handle_session_failure_marks_and_requeues_witness :
    (Examples.mgr_fail.sessions.map Prod.fst).Nodup
    ∧ ((alist_lookup "s1" Examples.mgr_fail.sessions = none →
         handle_session_failure Examples.mgr_fail "s1" "task-2" "t2" 0
           = Except.error ("Session " ++ "s1" ++ " not found"))
       ∧ ∀ s, alist_lookup "s1" Examples.mgr_fail.sessions = some s →
          ∃ m', handle_session_failure Examples.mgr_fail "s1" "task-2" "t2" 0 = Except.ok m'
            ∧ alist_lookup "s1" m'.sessions = some (fail_mark s)
            ∧ (∀ task0, s.task = some task0 → task0.completed_at = none →
                m'.pending_tasks = Examples.mgr_fail.pending_tasks ++ [task0]
                ∧ ∀ s2id,
                    idle_session_ids
                      (alist_update "s1" fail_mark Examples.mgr_fail.sessions) = [s2id] →
                    ∃ s2, alist_lookup s2id m'.sessions = some s2
                      ∧ s2.status = SessionStatus.Working
                      ∧ ∃ t', s2.task = some t'
                          ∧ t'.id = "task-2" ∧ t'.prompt = task0.prompt)) :=
  ⟨by decide,
   handle_session_failure_marks_and_requeues Examples.mgr_fail "s1" "task-2" "t2" 0
     (by decide)⟩

open Session in
/-- C10: under any single `SessionManager` operation, a registered
session that has left `Idle` (i.e. is `Working` or `Failed`) never
returns to `Idle` and never gains a different task (its task is kept or
cleared, so each session is assigned at most one task over its
lifetime); no session ever becomes `Completed` unless it already was;
a session observed `Idle` after the operation is unchanged by it; and
once every registered session is non-`Idle`, `distribute_task` fails
with the no-available-sessions error (only registering a new session
can change that). The `Nodup` hypothesis is the sessions `HashMap`
key-uniqueness invariant; `op_fresh` models uuid freshness of
registered ids. -/
theorem session_lifecycle_invariant :
    ∀ (m : SessionManager) (op : MgrOp),
      (m.sessions.map Prod.fst).Nodup →
      op_fresh m op →
      ((∀ sid s, alist_lookup sid m.sessions = some s →
          ∃ s', alist_lookup sid (applyOp m op).sessions = some s'
            ∧ (s.status ≠ SessionStatus.Idle →
                s'.status ≠ SessionStatus.Idle ∧ (s'.task = s.task ∨ s'.task = none))
            ∧ (s'.status = SessionStatus.Idle → s' = s)
            ∧ (s'.status = SessionStatus.Completed → s.status = SessionStatus.Completed))
       ∧ ((∀ p ∈ m.sessions, p.2.status ≠ SessionStatus.Idle) →
           ∀ (tid now prompt : String) (c : Nat),
             distribute_task m tid now prompt c
               = Except.error "No available sessions")) := by
  intro m op hnd hfresh
  constructor
  · intro sid s hlook
    cases op with
    | register server_id sid' now' =>
        have hfresh' : alist_lookup sid' m.sessions = none := hfresh
        have hne : sid ≠ sid' := by
          intro h
          subst h
          rw [hfresh'] at hlook
          exact Option.noConfusion hlook
        refine ⟨s, ?_, fun h => ⟨h, Or.inl rfl⟩, fun _ => rfl, fun h => h⟩
        show alist_lookup sid (alist_insert sid' _ m.sessions) = some s
        rw [alist_lookup_insert_ne sid' sid hne]
        exact hlook
    | distribute tid now' prompt c =>
        cases hd : distribute_task m tid now' prompt c with
        | error e =>
            have happly : applyOp m (MgrOp.distribute tid now' prompt c) = m := by
              simp only [applyOp]
              rw [hd]
            rw [happly]
            exact ⟨s, hlook, fun h => ⟨h, Or.inl rfl⟩, fun _ => rfl, fun h => h⟩
        | ok p =>
            obtain ⟨tid2, m2⟩ := p
            have happly : applyOp m (MgrOp.distribute tid now' prompt c) = m2 := by
              simp only [applyOp]
              rw [hd]
            obtain ⟨htid2, sid', hmem, hm2sess, hm2pend⟩ :=
              distribute_task_spec m tid now' prompt c tid2 m2 hd
            rw [happly, hm2sess]
            by_cases hcase : sid = sid'
            · subst hcase
              obtain ⟨v, hvmem, hvidle⟩ := (mem_idle_session_ids _ _).mp hmem
              have hlv := alist_lookup_of_nodup_mem sid v _ hnd hvmem
              rw [hlook] at hlv
              injection hlv with hlv
              subst hlv
              refine ⟨{ s with
                  task := some { id := tid, prompt := prompt, assigned_at := now',
                                 completed_at := none, result := none },
                  status := SessionStatus.Working }, ?_, ?_, ?_, ?_⟩
              · rw [alist_lookup_update_self, hlook]
                rfl
              · intro h
                exact absurd hvidle h
              · intro h
                exact SessionStatus.noConfusion h
              · intro h
                exact SessionStatus.noConfusion h
            · refine ⟨s, ?_, fun h => ⟨h, Or.inl rfl⟩, fun _ => rfl, fun h => h⟩
              rw [alist_lookup_update_ne sid' sid hcase]
              exact hlook
    | fail_session sid0 nid0 now0 c0 =>
        have hndmark : ((alist_update sid0 fail_mark m.sessions).map Prod.fst).Nodup := by
          rw [alist_update_keys]
          exact hnd
        have hA : ∃ s', alist_lookup sid (alist_update sid0 fail_mark m.sessions) = some s'
            ∧ (s.status ≠ SessionStatus.Idle →
                s'.status ≠ SessionStatus.Idle ∧ (s'.task = s.task ∨ s'.task = none))
            ∧ (s'.status = SessionStatus.Idle → s' = s)
            ∧ (s'.status = SessionStatus.Completed → s.status = SessionStatus.Completed) := by
          by_cases hcase : sid = sid0
          · subst hcase
            cases hlook0 : alist_lookup sid m.sessions with
            | none => rw [hlook0] at hlook; exact Option.noConfusion hlook
            | some s0 =>
                rw [hlook0] at hlook
                injection hlook with hs0
                subst hs0
                refine ⟨fail_mark s0, ?_, ?_, ?_, ?_⟩
                · rw [alist_lookup_update_self, hlook0]
                  rfl
                · intro h
                  exact ⟨fun hidle => SessionStatus.noConfusion hidle, Or.inr rfl⟩
                · intro h
                  exact absurd h (fun hidle => SessionStatus.noConfusion hidle)
                · intro h
                  exact absurd h (fun hc => SessionStatus.noConfusion hc)
          · refine ⟨s, ?_, fun h => ⟨h, Or.inl rfl⟩, fun _ => rfl, fun h => h⟩
            rw [alist_lookup_update_ne sid0 sid hcase]
            exact hlook
        cases hlook0 : alist_lookup sid0 m.sessions with
        | none =>
            have happly : applyOp m (MgrOp.fail_session sid0 nid0 now0 c0) = m := by
              simp only [applyOp]
              rw [handle_session_failure_eq_not_found m sid0 nid0 now0 c0 hlook0]
            rw [happly]
            exact ⟨s, hlook, fun h => ⟨h, Or.inl rfl⟩, fun _ => rfl, fun h => h⟩
        | some s0 =>
            have hmark0 : alist_lookup sid0 (alist_update sid0 fail_mark m.sessions)
                = some (fail_mark s0) := by
              rw [alist_lookup_update_self, hlook0]
              rfl
            have hB : ∀ (sid' : String) (newtask : Task),
                sid' ∈ idle_session_ids (alist_update sid0 fail_mark m.sessions) →
                ∃ s', alist_lookup sid
                    (alist_update sid'
                      (fun x =>
                        { x with task := some newtask, status := SessionStatus.Working })
                      (alist_update sid0 fail_mark m.sessions)) = some s'
                  ∧ (s.status ≠ SessionStatus.Idle →
                      s'.status ≠ SessionStatus.Idle ∧ (s'.task = s.task ∨ s'.task = none))
                  ∧ (s'.status = SessionStatus.Idle → s' = s)
                  ∧ (s'.status = SessionStatus.Completed →
                      s.status = SessionStatus.Completed) := by
              intro sid' newtask hmem
              obtain ⟨v, hvmem, hvidle⟩ := (mem_idle_session_ids _ _).mp hmem
              have hlv := alist_lookup_of_nodup_mem sid' v _ hndmark hvmem
              have hsid'0 : sid' ≠ sid0 := by
                intro h
                subst h
                rw [hmark0] at hlv
                injection hlv with hlv
                rw [← hlv] at hvidle
                exact SessionStatus.noConfusion hvidle
              by_cases hc1 : sid = sid'
              · subst hc1
                have hlmark : alist_lookup sid (alist_update sid0 fail_mark m.sessions)
                    = alist_lookup sid m.sessions :=
                  alist_lookup_update_ne sid0 sid hsid'0 fail_mark m.sessions
                have hvs : v = s := by
                  rw [hlmark, hlook] at hlv
                  injection hlv with h
                  exact h.symm
                subst hvs
                refine ⟨{ v with task := some newtask, status := SessionStatus.Working },
                  ?_, ?_, ?_, ?_⟩
                · rw [alist_lookup_update_self, hlv]
                  rfl
                · intro h
                  exact absurd hvidle h
                · intro h
                  exact SessionStatus.noConfusion h
                · intro h
                  exact SessionStatus.noConfusion h
              · obtain ⟨s', h1, h2, h3, h4⟩ := hA
                refine ⟨s', ?_, h2, h3, h4⟩
                rw [alist_lookup_update_ne sid' sid hc1]
                exact h1
            cases htask0 : s0.task with
            | none =>
                have happly : applyOp m (MgrOp.fail_session sid0 nid0 now0 c0)
                    = { m with sessions := alist_update sid0 fail_mark m.sessions } := by
                  simp only [applyOp]
                  rw [handle_session_failure_eq_of_task_none m sid0 nid0 now0 c0 s0
                    hlook0 htask0]
                rw [happly]
                exact hA
            | some task0 =>
                by_cases hcomp : task0.completed_at = none
                · have heq := handle_session_failure_eq_of_task_incomplete m sid0 nid0 now0
                    c0 s0 task0 hlook0 htask0 hcomp
                  cases hdist : distribute_task
                      { m with sessions := alist_update sid0 fail_mark m.sessions,
                               pending_tasks := m.pending_tasks ++ [task0] }
                      nid0 now0 task0.prompt c0 with
                  | error e =>
                      have happly : applyOp m (MgrOp.fail_session sid0 nid0 now0 c0)
                          = { m with sessions := alist_update sid0 fail_mark m.sessions,
                                     pending_tasks := m.pending_tasks ++ [task0] } := by
                        simp only [applyOp]
                        rw [heq, hdist]
                      rw [happly]
                      exact hA
                  | ok p =>
                      obtain ⟨tid2, m3⟩ := p
                      have happly : applyOp m (MgrOp.fail_session sid0 nid0 now0 c0) = m3 := by
                        simp only [applyOp]
                        rw [heq, hdist]
                      obtain ⟨htid2, sid', hmem, hm3sess, hm3pend⟩ := distribute_task_spec
                        { m with sessions := alist_update sid0 fail_mark m.sessions,
                                 pending_tasks := m.pending_tasks ++ [task0] }
                        nid0 now0 task0.prompt c0 tid2 m3 hdist
                      have hmem' : sid' ∈ idle_session_ids
                          (alist_update sid0 fail_mark m.sessions) := hmem
                      have hm3sess' : m3.sessions = alist_update sid'
                          (fun x => { x with
                            task := some { id := nid0, prompt := task0.prompt,
                                           assigned_at := now0, completed_at := none,
                                           result := none },
                            status := SessionStatus.Working })
                          (alist_update sid0 fail_mark m.sessions) := hm3sess
                      rw [happly, hm3sess']
                      exact hB sid' _ hmem'
                · have happly : applyOp m (MgrOp.fail_session sid0 nid0 now0 c0)
                      = { m with sessions := alist_update sid0 fail_mark m.sessions } := by
                    simp only [applyOp]
                    rw [handle_session_failure_eq_of_task_completed m sid0 nid0 now0 c0 s0
                      task0 hlook0 htask0 hcomp]
                  rw [happly]
                  exact hA
    | rebalance =>
        exact ⟨s, hlook, fun h => ⟨h, Or.inl rfl⟩, fun _ => rfl, fun h => h⟩
    | set_strategy strat =>
        exact ⟨s, hlook, fun h => ⟨h, Or.inl rfl⟩, fun _ => rfl, fun h => h⟩
  · intro hall tid now' prompt c
    exact distribute_task_error_of_no_idle m tid now' prompt c
      (idle_session_ids_eq_nil_of_all m.sessions hall)

open Session in
/-- C10 witness: the lifecycle invariant instantiated at a concrete
manager (one Working, one Idle session) under a concrete
`distribute_task` operation. -/
theorem session_lifecycle_invariant_witness :
    (Examples.mgr_fail.sessions.map Prod.fst).Nodup
    ∧ op_fresh Examples.mgr_fail (MgrOp.distribute "t9" "n9" "p9" 0)
    ∧ ((∀ sid s, alist_lookup sid Examples.mgr_fail.sessions = some s →
          ∃ s', alist_lookup sid
              (applyOp Examples.mgr_fail
                (MgrOp.distribute "t9" "n9" "p9" 0)).sessions = some s'
            ∧ (s.status ≠ SessionStatus.Idle →
                s'.status ≠ SessionStatus.Idle ∧ (s'.task = s.task ∨ s'.task = none))
            ∧ (s'.status = SessionStatus.Idle → s' = s)
            ∧ (s'.status = SessionStatus.Completed → s.status = SessionStatus.Completed))
       ∧ ((∀ p ∈ Examples.mgr_fail.sessions, p.2.status ≠ SessionStatus.Idle) →
           ∀ (tid now prompt : String) (c : Nat),
             distribute_task Examples.mgr_fail tid now prompt c
               = Except.error "No available sessions")) :=
  ⟨by decide, trivial,
   session_lifecycle_invariant Examples.mgr_fail (MgrOp.distribute "t9" "n9" "p9" 0)
     (by decide) trivial⟩

end NinjaSquad
